import Mathlib

/-!
# Meeting-room booking service: booking admission and token guard

A shallow embedding of `main.go`: the authentication middleware registered with
`e.Use`, the `POST /login` handler and the `POST /meeting_rooms/:id/bookings`
handler, over an explicit booking store (the rows of the `bookings` table).

Conventions of the embedding:

* instants (`time.Time`) are integers counting time units since the Unix epoch
  (seconds in the worked examples), compared as instants; the store keeps them
  exactly;
* the booking table is a `List Booking`, `db.Where(..).Find` is a filter over
  it and `db.Create` appends one row;
* everything the program obtains from outside its own source (the Go standard
  library, `jwt-go`, `uuid`, the process environment, storage failures) is a
  field of `World`; the theorems quantify over every `World`;
* a Go run-time panic is the outcome `fault`: no response is written by the
  handler chain.
-/

namespace MeetingBooking

/-! ## Data model -/

/-- The `Booking` struct (the `MeetingRoom` association is not read by any handler). -/
structure Booking where
  ID : String
  Start : Int
  End : Int
  MeetingRoomID : String
  CreatedBy : String
deriving DecidableEq, Repr

/-- The `LoginRequest` struct. -/
structure LoginRequest where
  Username : String
  Password : String
deriving DecidableEq, Repr

/-- The `Claims` struct: `Username` plus the `ExpiresAt` of the embedded
`jwt.StandardClaims`. -/
structure Claims where
  Username : String
  ExpiresAt : Int
deriving DecidableEq, Repr

/-- Signing methods of `jwt-go`, by family. -/
inductive SigningMethod
  | HMAC (alg : String)
  | RSA (alg : String)
  | ECDSA (alg : String)
  | None
deriving DecidableEq, Repr

/-- The value `jwt.SigningMethodHS256`. -/
def SigningMethodHS256 : SigningMethod := .HMAC "HS256"

/-- The part of a `*jwt.Token` the key function can look at before verification. -/
structure UnverifiedToken where
  Method : SigningMethod
  alg : String
deriving DecidableEq, Repr

/-- Errors of `jwt.ParseWithClaims`: the sentinel `jwt.ErrSignatureInvalid` and
every other error value. -/
inductive JwtError
  | ErrSignatureInvalid
  | other (msg : String)
deriving DecidableEq, Repr

/-- The pair `(token, err)` returned by `jwt.ParseWithClaims`; `Valid` is the
`token.Valid` flag and `claims` the filled-in `*Claims`. -/
structure ParseResult where
  Valid : Bool
  claims : Claims
  err : Option JwtError
deriving DecidableEq, Repr

/-- A dynamically typed value stored in a `jwt.MapClaims` map. -/
inductive ClaimValue
  | str (s : String)
  | num (n : Int)
deriving DecidableEq, Repr

/-- The dynamic type of a token's `Claims` field. -/
inductive TokenClaims
  | MapClaims (m : List (String × ClaimValue))
  | structClaims (c : Claims)
deriving DecidableEq, Repr

/-- A value held in the request context's key/value store (`c.Set` / `c.Get`). -/
inductive CtxValue
  | jwtToken (claims : TokenClaims)
  | otherValue (descr : String)
deriving DecidableEq, Repr

/-- What a handler reads from its `echo.Context`: the `Authorization` header
(`""` when absent), the path parameter `id`, the form values, the result of
`c.Bind` on the body (`none` when binding fails) and the context store. -/
structure Context where
  authorization : String
  paramID : String
  formValue : String → String
  bind : Option LoginRequest
  get : String → Option CtxValue

/-- Response bodies: `ErrorResponse`, the JSON of an `echo.HTTPError` written by
the default error handler, `AuthToken`, and a serialised `Booking`. -/
inductive Body
  | errorResponse (Error : String)
  | httpError (message : String)
  | authToken (Token : String)
  | booking (b : Booking)
deriving DecidableEq, Repr

/-- An HTTP response: status code and body. -/
structure Response where
  status : Nat
  body : Body
deriving DecidableEq, Repr

/-- Result of running the handler chain: a response, or a run-time panic. -/
inductive Outcome
  | respond (r : Response)
  | fault (reason : String)
deriving DecidableEq, Repr

/-- Everything obtained from outside the program's own source for one request. -/
structure World where
  /-- Models `time.Parse(time.RFC3339, ·)`; `none` is a parse error. -/
  parseRFC3339 : String → Option Int
  /-- Models `jwt.ParseWithClaims(tokenString, claims, keyFunc)`. -/
  parseWithClaims : String → (UnverifiedToken → Except String String) → ParseResult
  /-- Models `token.SignedString(key)` for a token of the given method and map claims. -/
  signedString : SigningMethod → List (String × ClaimValue) → String → Except String String
  /-- Models `os.Getenv("JWT_SECRET")`. -/
  jwtSecret : String
  /-- Models `time.Now().Unix()`. -/
  now : Int
  /-- Models `uuid.New().String()`. -/
  uuid : String
  /-- Models the `result.Error` of the availability query (`none` is success). -/
  findError : Option String
  /-- Models the `result.Error` of `db.Create` (`none` is success). -/
  createError : Option String

/-! ## Helpers standing for Go and Echo primitives -/

/-- Go's `s[n:]`: `none` is the slice-bounds panic raised when `n > len(s)`
(lengths and offsets count bytes). -/
def sliceFrom (s : String) (n : Nat) : Option String :=
  if n ≤ s.utf8ByteSize then some (s.extract ⟨n⟩ s.endPos) else none

/-- `c.JSON(status, ErrorResponse{Error: msg})`. -/
def jsonError (status : Nat) (msg : String) : Outcome :=
  .respond ⟨status, .errorResponse msg⟩

/-- Returning `echo.NewHTTPError(status, msg)`: the default error handler writes it. -/
def httpError (status : Nat) (msg : String) : Outcome :=
  .respond ⟨status, .httpError msg⟩

/-- Returning a plain `error` from a handler: the default error handler answers 500. -/
def internalError : Outcome :=
  .respond ⟨500, .httpError "Internal Server Error"⟩

/-- The value `echo.ErrUnauthorized`. -/
def ErrUnauthorized : Outcome :=
  .respond ⟨401, .httpError "Unauthorized"⟩

/-! ## The middleware (Token Guard), `main.go` lines 81-113 -/

/-- The key function handed to `jwt.ParseWithClaims` (lines 91-98). -/
def keyFunc (w : World) (token : UnverifiedToken) : Except String String :=
  match token.Method with
  | .HMAC _ => .ok w.jwtSecret
  | _ => .error ("unexpected signing method: " ++ token.alg)

/-- The authentication middleware wrapped around `next`. -/
def authMiddleware (w : World) (next : Context → List Booking → Outcome × List Booking)
    (c : Context) (db : List Booking) : Outcome × List Booking :=
  let authHeader := c.authorization
  if authHeader = "" then
    (jsonError 401 "Missing authorization header", db)
  else
    match sliceFrom authHeader "Bearer ".utf8ByteSize with
    | none => (.fault "slice bounds out of range", db)
    | some tokenString =>
      let r := w.parseWithClaims tokenString (keyFunc w)
      match r.err with
      | some err =>
        if err = JwtError.ErrSignatureInvalid then
          (jsonError 401 "Invalid token signature", db)
        else
          (jsonError 401 "Invalid token", db)
      | none =>
        if !r.Valid then
          (jsonError 401 "Invalid token", db)
        else
          next c db

/-! ## `POST /login`, lines 116-141 -/

/-- The key the login handler signs with (line 133). -/
def loginSigningKey : String := "secret"

/-- The login handler. It does not touch the booking store. -/
def loginHandler (w : World) (c : Context) : Outcome :=
  match c.bind with
  | none => jsonError 400 "Invalid request body"
  | some req =>
    if req.Username = "admin" ∧ req.Password = "password" then
      let claims : List (String × ClaimValue) :=
        [("username", .str req.Username), ("exp", .num (w.now + 24 * 3600))]
      match w.signedString SigningMethodHS256 claims loginSigningKey with
      | .error _ => internalError
      | .ok t => .respond ⟨200, .authToken t⟩
    else
      ErrUnauthorized

/-! ## `POST /meeting_rooms/:id/bookings`, lines 143-188 -/

/-- The row condition of the availability query (line 159):
`meeting_room_id = ? AND start <= ? AND end >= ?` with the arguments
`meetingRoomID, startTime, endTime` in that order. -/
def queryMatches (meetingRoomID : String) (startTime endTime : Int) (b : Booking) : Bool :=
  decide (b.MeetingRoomID = meetingRoomID) && decide (b.Start ≤ startTime)
    && decide (b.End ≥ endTime)

/-- The rows returned by `db.Where(...).Find(&bookings)`. -/
def findBookings (db : List Booking) (meetingRoomID : String) (startTime endTime : Int) :
    List Booking :=
  db.filter (queryMatches meetingRoomID startTime endTime)

/-- The booking handler: parse both times, run the availability query, read the
username from the context's `"user"` entry, insert. -/
def bookingHandler (w : World) (c : Context) (db : List Booking) : Outcome × List Booking :=
  let meetingRoomID := c.paramID
  match w.parseRFC3339 (c.formValue "start") with
  | none => (httpError 400 "Invalid start time format", db)
  | some startTime =>
    match w.parseRFC3339 (c.formValue "end") with
    | none => (httpError 400 "Invalid end time format", db)
    | some endTime =>
      match w.findError with
      | some _ => (internalError, db)
      | none =>
        let bookings := findBookings db meetingRoomID startTime endTime
        if bookings.length > 0 then
          (httpError 409 "Meeting room is not available", db)
        else
          match c.get "user" with
          | some (.jwtToken (.MapClaims claims)) =>
            match claims.lookup "username" with
            | some (.str username) =>
              let booking : Booking :=
                { ID := w.uuid, Start := startTime, End := endTime,
                  MeetingRoomID := meetingRoomID, CreatedBy := username }
              match w.createError with
              | some _ => (internalError, db)
              | none => (.respond ⟨200, .booking booking⟩, db ++ [booking])
            | _ => (.fault "interface conversion: claims[\"username\"] is not string", db)
          | some (.jwtToken _) =>
            (.fault "interface conversion: jwt.Claims is not jwt.MapClaims", db)
          | _ => (.fault "interface conversion: interface is not *jwt.Token", db)

/-! ## Routing: the Echo instance with its middleware and two routes -/

/-- The route a request is matched to. -/
inductive Route
  | login
  | bookings (id : String)
  | notFound
deriving DecidableEq, Repr

/-- An incoming request as the program sees it. -/
structure Request where
  route : Route
  authorization : String
  formValue : String → String
  bind : Option LoginRequest

/-- The context Echo creates for a request: its store starts empty, and no code
of the program calls `c.Set`. -/
def newContext (req : Request) : Context :=
  { authorization := req.authorization
    paramID := match req.route with
      | .bookings id => id
      | _ => ""
    formValue := req.formValue
    bind := req.bind
    get := fun _ => none }

/-- The handler the router selects. -/
def routeHandler (w : World) (route : Route) (c : Context) (db : List Booking) :
    Outcome × List Booking :=
  match route with
  | .login => (loginHandler w c, db)
  | .bookings _ => bookingHandler w c db
  | .notFound => (httpError 404 "Not Found", db)

/-- One request through the server: the middleware of `e.Use` wraps every route. -/
def serve (w : World) (req : Request) (db : List Booking) : Outcome × List Booking :=
  authMiddleware w (routeHandler w req.route) (newContext req) db

/-! ## Properties used to state the claims -/

/-- The overlap predicate in the words of the specification (section 4.3): an
existing booking `b` conflicts with the requested interval `(s, e)` when
`b.start <= e` and `b.end >= s`. -/
def specConflict (s e : Int) (b : Booking) : Prop :=
  b.Start ≤ e ∧ b.End ≥ s

instance (s e : Int) (b : Booking) : Decidable (specConflict s e b) := by
  unfold specConflict; infer_instance

/-- Two bookings of the same room whose half-open intervals `[start, end)` intersect. -/
def overlaps (a b : Booking) : Prop :=
  a.MeetingRoomID = b.MeetingRoomID ∧ a.Start < b.End ∧ b.Start < a.End

instance (a b : Booking) : Decidable (overlaps a b) := by
  unfold overlaps; infer_instance

/-- The room invariant of the data model: no two bookings of the same room overlap. -/
def NoOverlap (db : List Booking) : Prop :=
  db.Pairwise (fun a b => ¬ overlaps a b)

instance (db : List Booking) : Decidable (NoOverlap db) := by
  unfold NoOverlap; infer_instance

/-- The response `409 Conflict` of the availability check (line 165). -/
def conflictOutcome : Outcome :=
  httpError 409 "Meeting room is not available"

/-- The status code of an outcome; a fault has none. -/
def Outcome.status : Outcome → Option Nat
  | .respond r => some r.status
  | .fault _ => none

/-! ## Concrete collaborators for the worked examples

The theorems hold for every `World`; the examples below need one. `rfc3339Utc`
reads the `YYYY-MM-DDTHH:MM:SSZ` form of RFC 3339 and agrees with
`time.Parse(time.RFC3339, ·)` on the strings it accepts; `sampleParseWithClaims`
and `sampleSignedString` are a toy token library in which a token is the text
`<alg>:<key>`, so that a token verifies exactly under the key that signed it. -/

/-- Value of a decimal digit. -/
def digit (c : Char) : Option Nat :=
  if 48 ≤ c.toNat ∧ c.toNat ≤ 57 then some (c.toNat - 48) else none

/-- Value of two decimal digits. -/
def num2 (a b : Char) : Option Nat :=
  match digit a, digit b with
  | some x, some y => some (10 * x + y)
  | _, _ => none

/-- Gregorian leap years. -/
def isLeap (y : Nat) : Bool :=
  (y % 4 == 0 && y % 100 != 0) || y % 400 == 0

/-- Number of days of month `m` in year `y`. -/
def daysIn (y m : Nat) : Nat :=
  if m = 2 then (if isLeap y then 29 else 28)
  else if m = 4 ∨ m = 6 ∨ m = 9 ∨ m = 11 then 30 else 31

/-- Days from 1970-01-01 to the civil date `y-m-d`. -/
def daysFromCivil (y m d : Nat) : Int :=
  let y1 : Int := if m ≤ 2 then (y : Int) - 1 else y
  let era : Int := y1 / 400
  let yoe : Int := y1 - era * 400
  let mp : Int := if m > 2 then (m : Int) - 3 else (m : Int) + 9
  let doy : Int := (153 * mp + 2) / 5 + (d : Int) - 1
  let doe : Int := yoe * 365 + yoe / 4 - yoe / 100 + doy
  era * 146097 + doe - 719468

/-- Unix seconds of a timestamp written `YYYY-MM-DDTHH:MM:SSZ`, `none` otherwise. -/
def rfc3339Utc (s : String) : Option Int :=
  match s.data with
  | [y1, y2, y3, y4, d1, m1, m2, d2, a1, a2, t, h1, h2, c1, n1, n2, c2, s1, s2, z] =>
    if d1 = '-' ∧ d2 = '-' ∧ t = 'T' ∧ c1 = ':' ∧ c2 = ':' ∧ z = 'Z' then
      match num2 y1 y2, num2 y3 y4, num2 m1 m2, num2 a1 a2, num2 h1 h2, num2 n1 n2,
        num2 s1 s2 with
      | some yh, some yl, some mo, some da, some hh, some mi, some ss =>
        let y := 100 * yh + yl
        if 1 ≤ mo ∧ mo ≤ 12 ∧ 1 ≤ da ∧ da ≤ daysIn y mo ∧ hh ≤ 23 ∧ mi ≤ 59 ∧ ss ≤ 59 then
          some (daysFromCivil y mo da * 86400 + hh * 3600 + mi * 60 + ss)
        else none
      | _, _, _, _, _, _, _ => none
    else none
  | _ => none

/-- Split a text at its first colon. -/
def splitAtColon : List Char → List Char × Option (List Char)
  | [] => ([], none)
  | c :: cs =>
    if c = ':' then ([], some cs)
    else ((c :: (splitAtColon cs).1), (splitAtColon cs).2)

/-- Toy signing: the token is `HS256:<key>` whatever the claims. -/
def sampleSignedString (_m : SigningMethod) (_claims : List (String × ClaimValue))
    (key : String) : Except String String :=
  .ok ("HS256:" ++ key)

/-- Toy parsing in the order of `jwt-go`: decode, ask the key function, verify. -/
def sampleParseWithClaims (tokenString : String)
    (kf : UnverifiedToken → Except String String) : ParseResult :=
  match splitAtColon tokenString.data with
  | (_, none) =>
    ⟨false, ⟨"", 0⟩, some (.other "token contains an invalid number of segments")⟩
  | (alg, some sig) =>
    let method : SigningMethod :=
      if alg = "HS256".data then .HMAC "HS256"
      else if alg = "RS256".data then .RSA "RS256"
      else .None
    match kf ⟨method, String.mk alg⟩ with
    | .error e => ⟨false, ⟨"", 0⟩, some (.other e)⟩
    | .ok key =>
      if String.mk sig = key then ⟨true, ⟨"admin", 4102444800⟩, none⟩
      else ⟨false, ⟨"admin", 4102444800⟩, some (.other "signature is invalid")⟩

/-- A world in which `JWT_SECRET` is `secret` and storage does not fail. -/
def sampleWorld : World :=
  { parseRFC3339 := rfc3339Utc
    parseWithClaims := sampleParseWithClaims
    signedString := sampleSignedString
    jwtSecret := "secret"
    now := 1704067200
    uuid := "3f2b8c1e-7a4d-4e9b-9c55-0d6a1b2c3d4e"
    findError := none
    createError := none }

/-- The same world with `JWT_SECRET` set to another value. -/
def deployedWorld : World :=
  { sampleWorld with jwtSecret := "changeme" }

/-- Form values of a booking request. -/
def bookingForm (start stop : String) : String → String :=
  fun k => if k = "start" then start else if k = "end" then stop else ""

/-- A context for room `id` whose store holds, under `"user"`, a token with map
claims naming `username`. -/
def userContext (id start stop username : String) : Context :=
  { authorization := "Bearer HS256:secret"
    paramID := id
    formValue := bookingForm start stop
    bind := none
    get := fun k =>
      if k = "user" then
        some (.jwtToken (.MapClaims [("username", .str username)]))
      else none }

/-- A booking request for room `id` carrying the given `Authorization` header. -/
def bookingRequest (id auth start stop : String) : Request :=
  { route := .bookings id
    authorization := auth
    formValue := bookingForm start stop
    bind := none }

/-- A login request carrying the given `Authorization` header. -/
def loginRequest (auth username password : String) : Request :=
  { route := .login
    authorization := auth
    formValue := fun _ => ""
    bind := some ⟨username, password⟩ }

/-- An existing booking of room 1 from 10:00 to 12:00 on 2024-01-01. -/
def morningBooking : Booking :=
  { ID := "b-1", Start := 1704103200, End := 1704110400, MeetingRoomID := "1",
    CreatedBy := "alice" }

/-- An existing booking of room 1 from 10:00 to 11:00 on 2024-01-01. -/
def hourBooking : Booking :=
  { ID := "b-2", Start := 1704103200, End := 1704106800, MeetingRoomID := "1",
    CreatedBy := "alice" }

/-! ## Token Guard -/

/-- The length of the bearer marker, `len("Bearer ")`. -/
theorem bearer_len : "Bearer ".utf8ByteSize = 7 := by decide

/-- A missing header is answered 401 without consulting `next`. -/
theorem authMiddleware_missing_header (w : World)
    (next : Context → List Booking → Outcome × List Booking) (c : Context)
    (db : List Booking) (h : c.authorization = "") :
    authMiddleware w next c db = (jsonError 401 "Missing authorization header", db) := by
  simp [authMiddleware, h]

/-- A non-empty header shorter than the marker makes the slice expression panic. -/
theorem authMiddleware_short_header (w : World)
    (next : Context → List Booking → Outcome × List Booking) (c : Context)
    (db : List Booking) (hne : c.authorization ≠ "")
    (hlen : c.authorization.utf8ByteSize < 7) :
    authMiddleware w next c db = (.fault "slice bounds out of range", db) := by
  have hs : sliceFrom c.authorization "Bearer ".utf8ByteSize = none := by
    rw [bearer_len]
    unfold sliceFrom
    rw [if_neg (by omega)]
  simp [authMiddleware, hne, hs]

/-- When slicing succeeds, parsing reports no error and the token is valid, the
guard hands the request to `next`. -/
theorem authMiddleware_accepts (w : World)
    (next : Context → List Booking → Outcome × List Booking) (c : Context)
    (db : List Booking) (tok : String) (hne : c.authorization ≠ "")
    (hs : sliceFrom c.authorization 7 = some tok)
    (herr : (w.parseWithClaims tok (keyFunc w)).err = none)
    (hvalid : (w.parseWithClaims tok (keyFunc w)).Valid = true) :
    authMiddleware w next c db = next c db := by
  rw [← bearer_len] at hs
  simp [authMiddleware, hne, hs, herr, hvalid]

/-- The key function refuses every signing method outside the HMAC family. -/
theorem keyFunc_rejects_non_hmac (w : World) (t : UnverifiedToken)
    (h : ∀ a, t.Method ≠ .HMAC a) : ∃ e, keyFunc w t = .error e := by
  unfold keyFunc
  cases hm : t.Method with
  | HMAC a => exact absurd hm (h a)
  | RSA a => exact ⟨_, rfl⟩
  | ECDSA a => exact ⟨_, rfl⟩
  | None => exact ⟨_, rfl⟩

/-- For an HMAC token the key function returns the value of `JWT_SECRET`. -/
theorem keyFunc_hmac (w : World) (a alg : String) :
    keyFunc w ⟨.HMAC a, alg⟩ = .ok w.jwtSecret := rfl

/-- C6. Token Guard never reaches the protected handler on a rejected token: when
the header is missing, or the token sliced from it makes `ParseWithClaims` report
an error (signing method refused by the key function, bad signature, expiry, any
other failure) or comes back not valid, the guard answers 401, the answer does
not depend on the next handler, and the booking store is returned unchanged.
Moreover the key function refuses every non-HMAC signing method. -/
theorem authMiddleware_rejects (w : World) (c : Context) (db : List Booking)
    (h : c.authorization = "" ∨
      ∃ tok, sliceFrom c.authorization 7 = some tok ∧
        ((w.parseWithClaims tok (keyFunc w)).err ≠ none ∨
          (w.parseWithClaims tok (keyFunc w)).Valid = false)) :
    (∃ msg, ∀ next, authMiddleware w next c db = (jsonError 401 msg, db)) ∧
      ∀ t : UnverifiedToken, (∀ a, t.Method ≠ .HMAC a) → ∃ e, keyFunc w t = .error e := by
  refine ⟨?_, fun t ht => keyFunc_rejects_non_hmac w t ht⟩
  by_cases hempty : c.authorization = ""
  · exact ⟨_, fun next => authMiddleware_missing_header w next c db hempty⟩
  · rcases h with h | ⟨tok, hs, hbad⟩
    · exact absurd h hempty
    · rw [← bearer_len] at hs
      cases herr : (w.parseWithClaims tok (keyFunc w)).err with
      | some e =>
        by_cases hsig : e = JwtError.ErrSignatureInvalid
        · exact ⟨"Invalid token signature", fun next => by
            simp [authMiddleware, hempty, hs, herr, hsig]⟩
        · exact ⟨"Invalid token", fun next => by
            simp [authMiddleware, hempty, hs, herr, hsig]⟩
      | none =>
        rcases hbad with hbad | hbad
        · exact absurd herr hbad
        · exact ⟨"Invalid token", fun next => by
            simp [authMiddleware, hempty, hs, herr, hbad]⟩

/-- Witness for C6: a token announcing RS256 is refused by the key function and
the guard answers 401. -/
theorem authMiddleware_rejects_witness :
    (∃ msg, ∀ next, authMiddleware sampleWorld next
        (newContext (bookingRequest "1" "Bearer RS256:secret" "2024-01-01T10:00:00Z"
          "2024-01-01T11:00:00Z")) [] = (jsonError 401 msg, [])) ∧
      ∀ t : UnverifiedToken, (∀ a, t.Method ≠ .HMAC a) →
        ∃ e, keyFunc sampleWorld t = .error e :=
  authMiddleware_rejects sampleWorld
    (newContext (bookingRequest "1" "Bearer RS256:secret" "2024-01-01T10:00:00Z"
      "2024-01-01T11:00:00Z")) []
    (Or.inr ⟨"RS256:secret", by decide, Or.inl (by decide)⟩)

/-- The guard's result can depend on the next handler only when the header is
present, the slice succeeded, parsing reported no error and the token is valid. -/
theorem authMiddleware_next_only_when_verified (w : World) (c : Context)
    (db : List Booking) (next1 next2 : Context → List Booking → Outcome × List Booking)
    (hdiff : authMiddleware w next1 c db ≠ authMiddleware w next2 c db) :
    c.authorization ≠ "" ∧ ∃ tok, sliceFrom c.authorization 7 = some tok ∧
      (w.parseWithClaims tok (keyFunc w)).err = none ∧
      (w.parseWithClaims tok (keyFunc w)).Valid = true := by
  by_cases hempty : c.authorization = ""
  · exact absurd (by simp [authMiddleware, hempty]) hdiff
  · refine ⟨hempty, ?_⟩
    cases hs : sliceFrom c.authorization 7 with
    | none =>
      rw [← bearer_len] at hs
      exact absurd (by simp [authMiddleware, hempty, hs]) hdiff
    | some tok =>
      refine ⟨tok, rfl, ?_⟩
      rw [← bearer_len] at hs
      cases herr : (w.parseWithClaims tok (keyFunc w)).err with
      | some e =>
        exfalso
        apply hdiff
        by_cases hsig : e = JwtError.ErrSignatureInvalid <;>
          simp [authMiddleware, hempty, hs, herr, hsig]
      | none =>
        refine ⟨rfl, ?_⟩
        cases hv : (w.parseWithClaims tok (keyFunc w)).Valid with
        | true => rfl
        | false => exact absurd (by simp [authMiddleware, hempty, hs, herr, hv]) hdiff

/-- C5. A six-byte `Authorization` header (`Bearer`, shorter than the marker
`Bearer `) is not answered 401: the slice expression panics and the outcome is a
fault. -/
theorem short_header_faults :
    "Bearer".utf8ByteSize < "Bearer ".utf8ByteSize ∧
      serve sampleWorld (bookingRequest "1" "Bearer" "2024-01-01T10:00:00Z"
        "2024-01-01T11:00:00Z") [] = (.fault "slice bounds out of range", []) := by
  decide

/-! ## Booking admission -/

/-- Every path of the booking handler either returns the store as it was, or
answers 200 with the created booking and appends exactly that booking. -/
theorem bookingHandler_store_cases (w : World) (c : Context) (db : List Booking) :
    ((bookingHandler w c db).1.status ≠ some 200 ∧ (bookingHandler w c db).2 = db) ∨
      ∃ b, bookingHandler w c db = (.respond ⟨200, .booking b⟩, db ++ [b]) := by
  unfold bookingHandler
  dsimp only
  repeat' split
  all_goals first
    | (left; exact ⟨by simp [Outcome.status, httpError, internalError], rfl⟩)
    | (right; exact ⟨_, rfl⟩)

/-- C9. Failure atomicity of booking admission: whenever the handler does not
answer 200 (a 400 for a malformed time, a 409 conflict, a storage error of the
query or of the insert, a panic while reading the username), the store after
the request is the store before it. -/
theorem bookingHandler_failure_keeps_store (w : World) (c : Context) (db : List Booking)
    (h : (bookingHandler w c db).1.status ≠ some 200) :
    (bookingHandler w c db).2 = db := by
  rcases bookingHandler_store_cases w c db with ⟨_, hdb⟩ | ⟨b, hb⟩
  · exact hdb
  · rw [hb] at h
    exact absurd rfl h

/-- Witness for C9: a request rejected with 409 leaves the store untouched. -/
theorem bookingHandler_failure_keeps_store_witness :
    (bookingHandler sampleWorld
        (userContext "1" "2024-01-01T10:30:00Z" "2024-01-01T11:30:00Z" "admin")
        [morningBooking]).1.status = some 409 ∧
      (bookingHandler sampleWorld
        (userContext "1" "2024-01-01T10:30:00Z" "2024-01-01T11:30:00Z" "admin")
        [morningBooking]).2 = [morningBooking] :=
  ⟨by decide,
    bookingHandler_failure_keeps_store sampleWorld
      (userContext "1" "2024-01-01T10:30:00Z" "2024-01-01T11:30:00Z" "admin")
      [morningBooking] (by decide)⟩

/-- C10. Validation order: if the start value does not parse the handler answers
400 for the start time whatever the end value is; if the start parses and the end
does not it answers 400 for the end time. In both cases the answer and the
unchanged store are fixed before the availability query, whatever the store
holds and whether or not the query would fail. -/
theorem bookingHandler_validation_order (w : World) (c : Context) (db : List Booking)
    (h : w.parseRFC3339 (c.formValue "start") = none ∨
      w.parseRFC3339 (c.formValue "end") = none) :
    bookingHandler w c db =
      (if w.parseRFC3339 (c.formValue "start") = none then
          httpError 400 "Invalid start time format"
        else httpError 400 "Invalid end time format", db) := by
  unfold bookingHandler
  cases hs : w.parseRFC3339 (c.formValue "start") with
  | none => simp
  | some s =>
    cases he : w.parseRFC3339 (c.formValue "end") with
    | none => simp
    | some e =>
      rw [hs, he] at h
      simp at h

/-- Witness for C10: an unparseable start with an unparseable end is answered
with the start-time error. -/
theorem bookingHandler_validation_order_witness :
    bookingHandler sampleWorld (userContext "1" "tomorrow" "later" "admin") [morningBooking] =
      (httpError 400 "Invalid start time format", [morningBooking]) :=
  (bookingHandler_validation_order sampleWorld (userContext "1" "tomorrow" "later" "admin")
    [morningBooking] (Or.inl (by decide))).trans (by decide)

/-- A parseable start followed by an unparseable end is answered with the
end-time error. -/
theorem bookingHandler_end_time_error :
    bookingHandler sampleWorld
        (userContext "1" "2024-01-01T10:00:00Z" "2024-01-01 11:00" "admin") [morningBooking] =
      (httpError 400 "Invalid end time format", [morningBooking]) := by
  decide

/-- What the availability check of the code decides: with parseable times and a
query that does not fail, the handler answers 409 exactly when the store holds a
booking of the room that starts no later than the request starts and ends no
earlier than the request ends. -/
theorem bookingHandler_conflict_iff (w : World) (c : Context) (db : List Booking)
    (s e : Int) (hs : w.parseRFC3339 (c.formValue "start") = some s)
    (he : w.parseRFC3339 (c.formValue "end") = some e) (hq : w.findError = none) :
    (bookingHandler w c db).1 = conflictOutcome ↔
      ∃ b ∈ db, b.MeetingRoomID = c.paramID ∧ b.Start ≤ s ∧ b.End ≥ e := by
  have hlen : 0 < (findBookings db c.paramID s e).length ↔
      ∃ b ∈ db, b.MeetingRoomID = c.paramID ∧ b.Start ≤ s ∧ b.End ≥ e := by
    rw [List.length_pos_iff_exists_mem]
    constructor
    · rintro ⟨b, hb⟩
      have hb2 := List.mem_filter.mp hb
      refine ⟨b, hb2.1, ?_⟩
      simpa [queryMatches, and_assoc] using hb2.2
    · rintro ⟨b, hb, h1, h2, h3⟩
      exact ⟨b, List.mem_filter.mpr ⟨hb, by simp [queryMatches, h1, h2, h3]⟩⟩
  unfold bookingHandler
  simp only [hs, he, hq]
  by_cases hpos : 0 < (findBookings db c.paramID s e).length
  · simp only [gt_iff_lt, hpos, if_true]
    exact ⟨fun _ => hlen.mp hpos, fun _ => rfl⟩
  · simp only [gt_iff_lt, hpos, if_false]
    constructor
    · intro h
      exfalso
      revert h
      repeat' split
      all_goals simp [conflictOutcome, httpError, internalError]
    · intro h
      exact absurd (hlen.mpr h) hpos

/-- The success path of the handler: parseable times, a query that succeeds and
selects nothing, a context whose `"user"` entry is a token with map claims
naming `u`, and an insert that succeeds give 200 with the booking made of the
generated id, the parsed times, the path's room and `u`, appended to the store. -/
theorem bookingHandler_creates (w : World) (c : Context) (db : List Booking)
    (s e : Int) (claims : List (String × ClaimValue)) (u : String)
    (hs : w.parseRFC3339 (c.formValue "start") = some s)
    (he : w.parseRFC3339 (c.formValue "end") = some e) (hq : w.findError = none)
    (hfree : findBookings db c.paramID s e = [])
    (huser : c.get "user" = some (.jwtToken (.MapClaims claims)))
    (hname : claims.lookup "username" = some (.str u)) (hc : w.createError = none) :
    bookingHandler w c db =
      (.respond ⟨200, .booking ⟨w.uuid, s, e, c.paramID, u⟩⟩,
        db ++ [⟨w.uuid, s, e, c.paramID, u⟩]) := by
  simp [bookingHandler, hs, he, hq, hfree, huser, hname, hc]

/-- The availability check in the words of the specification would keep the room
invariant: appending a booking that meets no stored booking of its room under
`specConflict` preserves `NoOverlap`. -/
theorem specConflict_free_preserves_noOverlap (db : List Booking) (n : Booking)
    (hinv : NoOverlap db)
    (hfree : ∀ b ∈ db, b.MeetingRoomID = n.MeetingRoomID → ¬ specConflict n.Start n.End b) :
    NoOverlap (db ++ [n]) := by
  unfold NoOverlap at *
  rw [List.pairwise_append]
  refine ⟨hinv, List.pairwise_singleton _ _, ?_⟩
  intro a ha b hb
  rw [List.mem_singleton] at hb
  subst hb
  rintro ⟨hroom, h1, h2⟩
  exact hfree a ha hroom ⟨le_of_lt h1, le_of_lt h2⟩

/-- C1. A stored booking of room 1 from 10:00 to 12:00 conflicts, in the words of
the specification, with a request for room 1 from 11:00 to 13:00; the
availability query of the code returns no row for it and the handler answers
200 and inserts the booking instead of answering 409. Through the server as
wired the same request is not answered 409 either. -/
theorem overlapping_request_not_rejected :
    sampleWorld.parseRFC3339 "2024-01-01T11:00:00Z" = some 1704106800 ∧
      sampleWorld.parseRFC3339 "2024-01-01T13:00:00Z" = some 1704114000 ∧
      (∃ b ∈ [morningBooking], b.MeetingRoomID = "1" ∧
        specConflict 1704106800 1704114000 b) ∧
      findBookings [morningBooking] "1" 1704106800 1704114000 = [] ∧
      bookingHandler sampleWorld
          (userContext "1" "2024-01-01T11:00:00Z" "2024-01-01T13:00:00Z" "admin")
          [morningBooking] =
        (.respond ⟨200, .booking ⟨sampleWorld.uuid, 1704106800, 1704114000, "1", "admin"⟩⟩,
          [morningBooking, ⟨sampleWorld.uuid, 1704106800, 1704114000, "1", "admin"⟩]) ∧
      (serve sampleWorld
          (bookingRequest "1" "Bearer HS256:secret" "2024-01-01T11:00:00Z"
            "2024-01-01T13:00:00Z") [morningBooking]).1 ≠ conflictOutcome := by
  decide

/-- The handler taken alone, on a context that already holds a token under
`"user"` (a context the server never builds, see `newContext`): from a store with
one booking of room 1 from 10:00 to 12:00, a request for room 1 from 09:00 to
11:00 is inserted and the resulting store holds two overlapping bookings. -/
theorem bookingHandler_with_user_admits_overlap :
    NoOverlap [morningBooking] ∧
      sampleWorld.parseRFC3339 "2024-01-01T09:00:00Z" = some 1704099600 ∧
      sampleWorld.parseRFC3339 "2024-01-01T11:00:00Z" = some 1704106800 ∧
      (1704099600 : Int) < 1704106800 ∧
      (bookingHandler sampleWorld
          (userContext "1" "2024-01-01T09:00:00Z" "2024-01-01T11:00:00Z" "admin")
          [morningBooking]).1.status = some 200 ∧
      ¬ NoOverlap (bookingHandler sampleWorld
          (userContext "1" "2024-01-01T09:00:00Z" "2024-01-01T11:00:00Z" "admin")
          [morningBooking]).2 := by
  decide

/-- C3. With a stored booking of room 1 from 10:00 to 11:00, a request for room 1
from 11:00 to 12:00 starts exactly at the stored booking's end; the
availability query returns no row and the handler answers 200, not 409.
Through the server as wired the same request is not answered 409 either. -/
theorem boundary_touch_not_rejected :
    sampleWorld.parseRFC3339 "2024-01-01T11:00:00Z" = some hourBooking.End ∧
      sampleWorld.parseRFC3339 "2024-01-01T12:00:00Z" = some 1704110400 ∧
      hourBooking.End < 1704110400 ∧
      specConflict hourBooking.End 1704110400 hourBooking ∧
      findBookings [hourBooking] "1" hourBooking.End 1704110400 = [] ∧
      (bookingHandler sampleWorld
          (userContext "1" "2024-01-01T11:00:00Z" "2024-01-01T12:00:00Z" "admin")
          [hourBooking]).1.status = some 200 ∧
      (serve sampleWorld
          (bookingRequest "1" "Bearer HS256:secret" "2024-01-01T11:00:00Z"
            "2024-01-01T12:00:00Z") [hourBooking]).1 ≠ conflictOutcome := by
  decide

/-- A booking whose end is the request's start is never selected by the
availability query when the request has start before end. -/
theorem queryMatches_boundary (r : String) (s e : Int) (b : Booking)
    (hb : b.End = s) (hlt : s < e) : queryMatches r s e b = false := by
  have : ¬ b.End ≥ e := by omega
  simp [queryMatches, this]

/-! ## The server as wired: middleware around every route -/

/-- C4. A booking request whose bearer token the guard accepts (verified claims
naming `admin`), with RFC 3339 start and end and an empty store, is not answered
200: the guard stores nothing under `"user"`, the handler's type assertion
panics, and no record is added. -/
theorem accepted_request_faults :
    sampleWorld.parseWithClaims "HS256:secret" (keyFunc sampleWorld) =
        ⟨true, ⟨"admin", 4102444800⟩, none⟩ ∧
      serve sampleWorld
          (bookingRequest "1" "Bearer HS256:secret" "2024-01-01T10:00:00Z"
            "2024-01-01T11:00:00Z") [] =
        (.fault "interface conversion: interface is not *jwt.Token", []) := by
  decide

/-! ## Login -/

/-- The login handler on a bound body: the hardcoded pair is answered 200 with the
token signed under `loginSigningKey`, every other pair is answered 401. -/
theorem loginHandler_bound (w : World) (c : Context) (req : LoginRequest)
    (hb : c.bind = some req) :
    (req = ⟨"admin", "password"⟩ → ∀ t,
        w.signedString SigningMethodHS256
          [("username", .str "admin"), ("exp", .num (w.now + 24 * 3600))]
          loginSigningKey = .ok t →
        loginHandler w c = .respond ⟨200, .authToken t⟩) ∧
      (req ≠ ⟨"admin", "password"⟩ → loginHandler w c = ErrUnauthorized) := by
  constructor
  · intro hreq t ht
    subst hreq
    have ht2 := ht
    simp only [Int.reduceMul] at ht2
    simp [loginHandler, hb, ht2]
  · intro hreq
    have : ¬ (req.Username = "admin" ∧ req.Password = "password") := by
      rintro ⟨h1, h2⟩
      apply hreq
      cases req
      simp_all
    simp [loginHandler, hb, this]

/-- Whatever the route and the body, a request without an `Authorization` header
is answered 401 by the middleware. -/
theorem serve_missing_header (w : World) (req : Request) (db : List Booking)
    (h : req.authorization = "") :
    serve w req db = (jsonError 401 "Missing authorization header", db) :=
  authMiddleware_missing_header w _ (newContext req) db h

/-- C8. A `POST /login` request whose body binds to the hardcoded pair
(`admin`, `password`) and that carries no `Authorization` header is answered
401 by the middleware, not 200 with a token. -/
theorem login_without_header_unauthorized :
    (loginRequest "" "admin" "password").bind = some ⟨"admin", "password"⟩ ∧
      serve sampleWorld (loginRequest "" "admin" "password") [] =
        (jsonError 401 "Missing authorization header", []) := by
  decide

/-- C7. With `JWT_SECRET` set to `changeme`, the login handler answers the
hardcoded credential with a token signed under the literal key `secret`, the
guard's key function returns `changeme`, and the guard answers 401 when that
token is presented as a bearer token. -/
theorem login_token_refused :
    loginHandler deployedWorld (newContext (loginRequest "" "admin" "password")) =
        .respond ⟨200, .authToken "HS256:secret"⟩ ∧
      loginSigningKey = "secret" ∧
      keyFunc deployedWorld ⟨SigningMethodHS256, "HS256"⟩ = .ok "changeme" ∧
      serve deployedWorld
          (bookingRequest "1" "Bearer HS256:secret" "2024-01-01T10:00:00Z"
            "2024-01-01T11:00:00Z") [] =
        (jsonError 401 "Invalid token", []) :=
  ⟨by decide, by decide, rfl, by decide⟩

end MeetingBooking
